import Mathlib

/-!
Verification development for the Downapi repository: an HTTP service that
converts an online video identifier into a locally stored MP3 file.

The repository contains three near-duplicate revisions of the same engine:
* `src/index.js` — the single-attempt revision (one fixed format selector,
  a client-disconnect kill handler, and a metadata fetch that rejects its
  promise on spawn failure).  Definitions translated from it carry the
  word `legacy` in their name.
* `src/unnamed/part_002` — the fallback-controller revision ("fixed,
  cleaned"): four prioritized format selectors, cookies gating, a metadata
  fetch that resolves null in every failure case, and no disconnect
  handler.  Definitions translated from it carry the word `cleaned` (or no
  qualifier) in their name.
* the copy of the fallback revision embedded in `src/Dockerfile`, which is
  identical to `part_002` for every control path modelled here (it differs
  only in two advisory strings and the extractor-args flag).

External collaborators (the JSON parser, the sanitize-filename npm package,
the filesystem and the two child-process tools) are modelled as explicit
parameters or as outcome records describing the behaviour the process
exhibited, so all definitions below remain executable.
-/

namespace Downapi

/-! ## Character-level models of the JS string primitives

The Lean core `String.toLower` and `String.startsWith` are implemented on
byte positions and do not reduce inside the kernel, so the JS string
primitives are modelled directly on the character list of the string. -/

/-- JS `toLowerCase` on the strings this program handles (ASCII): lower
each character. -/
def jsToLower (s : String) : String :=
  ⟨s.toList.map Char.toLower⟩

/-- Whether the pattern list occurs at the head of the subject list. -/
def leadsChars : List Char → List Char → Bool
  | [], _ => true
  | _ :: _, [] => false
  | a :: as, b :: bs => a == b && leadsChars as bs

/-- JS `String.prototype.startsWith`. -/
def jsStartsWith (s pat : String) : Bool :=
  leadsChars pat.toList s.toList

/-- Whether the pattern list occurs anywhere inside the subject list. -/
def occursChars (pat : List Char) : List Char → Bool
  | [] => leadsChars pat []
  | c :: cs => leadsChars pat (c :: cs) || occursChars pat cs

/-- Substring test used to model the JS regex `test` calls. -/
def occursIn (s pat : String) : Bool :=
  occursChars pat.toList s.toList

/-! ## Transcode pipeline: one attempt (part_002 lines 161-206, index.js 130-181) -/

/-- Observable behaviour of one conversion attempt's pair of child
processes: the exit code delivered by the transcoder's close event
(`none` models the JS `null` code of a signal-killed process), the stderr
text accumulated from each process, and whether the output file exists on
disk when the transcoder's close event fires. -/
structure AttemptOutcome where
  code : Option Int
  ytdlStderr : String
  ffmpegStderr : String
  outputExists : Bool
deriving DecidableEq

/-- `attemptResult.code === 0 && fs.existsSync(filePath)` (part_002 line 198,
index.js line 163). -/
def attemptOk (a : AttemptOutcome) : Bool :=
  a.code == some 0 && a.outputExists

/-- JS `x || '(none)'`: the empty string is falsy. -/
def orNone (s : String) : String :=
  if s == "" then "(none)" else s

/-- How the JS template literal prints the close-event exit code: an
integer prints in decimal, the `null` code of a killed process prints as
the word null. -/
def codeText : Option Int → String
  | some n => toString n
  | none => "null"

/-- The per-attempt section appended to `finalErrorText` when an attempt
fails (part_002 line 203). -/
def attemptSection (fmt : String) (a : AttemptOutcome) : String :=
  "\n\n--- Attempt format=" ++ fmt ++ " ---\n\nyt-dlp stderr:\n" ++ orNone a.ytdlStderr ++
    "\n\nffmpeg stderr:\n" ++ orNone a.ffmpegStderr ++
    "\n\nffmpeg exit code: " ++ codeText a.code ++ "\n"

/-- Post-state of a single attempt, as checked by the route after the
transcoder closes: whether the attempt counts as a success, and whether a
file is (still) present at the computed output path after the attempt's
own cleanup ran (part_002 lines 198-206, index.js lines 162-181; the
guarded `fs.unlinkSync` on the failure path is modelled as succeeding). -/
structure AttemptPost where
  success : Bool
  filePresent : Bool
deriving DecidableEq

/-- Success test plus failure-path cleanup of one attempt: success iff the
exit code is zero and the output file exists; on failure any partial file
at the path is deleted. -/
def runAttemptPost (a : AttemptOutcome) : AttemptPost :=
  if a.code == some 0 && a.outputExists then
    { success := true, filePresent := a.outputExists }
  else
    { success := false, filePresent := false }

/-! ## Format fallback controller (part_002 lines 130-207) -/

/-- The ordered selector list `formatsToTry` (part_002 lines 130-135). -/
def formatsToTry : List String :=
  ["bestaudio[ext=m4a]/bestaudio",
   "bestaudio[protocol^=https]/bestaudio",
   "bestaudio[ext=webm]/bestaudio",
   "bestaudio"]

/-- Result of the fallback loop: either the first selector whose attempt
succeeded, or exhaustion carrying the accumulated `finalErrorText`. -/
inductive ConvResult where
  | success (fmt : String)
  | exhausted (finalErrorText : String)
deriving DecidableEq

/-- The `for (const fmt of formatsToTry)` loop (part_002 lines 161-207):
one attempt per selector, early return on the first success, `finalErrorText`
accumulation and partial-file cleanup on each failure.  The first component
of the result is the list of selectors actually attempted, in order; the
environment `env` gives the outcome each selector's attempt would produce. -/
def convertLoop (env : String → AttemptOutcome) : List String → String → List String × ConvResult
  | [], acc => ([], .exhausted acc)
  | fmt :: rest, acc =>
    let a := env fmt
    if attemptOk a then
      ([fmt], .success fmt)
    else
      let r := convertLoop env rest (acc ++ attemptSection fmt a)
      (fmt :: r.1, r.2)

/-- The whole fallback run over the declared selector list, starting from
the empty `finalErrorText`. -/
def convertRun (env : String → AttemptOutcome) : List String × ConvResult :=
  convertLoop env formatsToTry ""

/-! ## Quality resolution (part_002 lines 47, 101-106; identical in index.js) -/

/-- The `qualityMap` object: key lookup returns the bitrate for the three
known tiers and misses otherwise. -/
def qualityMap (k : String) : Option String :=
  if k == "low" then some "64k"
  else if k == "medium" then some "128k"
  else if k == "high" then some "320k"
  else none

/-- `(req.params.quality || 'high').toLowerCase()` followed by the
`includes` membership test with fallback to high (part_002 lines 101-105). -/
def resolveQuality (quality : String) : String :=
  let rawQuality := jsToLower (if quality == "" then "high" else quality)
  if rawQuality == "low" || rawQuality == "medium" || rawQuality == "high" then rawQuality
  else "high"

/-- `qualityMap[qualityKey]`; a missing key would give the JS undefined. -/
def effectiveBitrate (quality : String) : String :=
  (qualityMap (resolveQuality quality)).getD "undefined"

/-! ## Source resolution (part_002 lines 108-110; identical in index.js) -/

/-- The regex `^[a-zA-Z0-9_-]{11}$` (part_002 line 108). -/
def isStrictVideoId (s : String) : Bool :=
  s.length == 11 && s.toList.all fun c => c.isAlphanum || c == '_' || c == '-'

/-- The `videoUrl` ternary chain (part_002 lines 108-110). -/
def videoUrl (idParam : String) : String :=
  if isStrictVideoId idParam then "https://www.youtube.com/watch?v=" ++ idParam
  else if jsStartsWith idParam "http" then idParam
  else "https://www.youtube.com/watch?v=" ++ idParam

/-! ## Metadata fetch (part_002 lines 78-96, index.js lines 68-88) -/

/-- The shape of the parsed metadata JSON as the route consumes it: only
the `title` field is read.  `none` models an absent title; an empty string
title is stored as `some` and handled by the truthiness checks below. -/
structure MetaJson where
  title : Option String
deriving DecidableEq

/-- Which event settles the metadata child process: a close event carrying
the exit code and the accumulated stdout, or a spawn error event. -/
inductive ProcEvent where
  | closed (code : Option Int) (stdout : String)
  | spawnError
deriving DecidableEq

/-- Settlement of the metadata promise. -/
inductive MetaResult where
  | resolved (v : Option MetaJson)
  | rejected
deriving DecidableEq

/-- `fetchMetadata` of the fallback revision (part_002 lines 78-96):
resolve the parsed JSON on a zero exit with nonempty stdout, resolve null
on parse failure, nonzero exit, empty stdout, or spawn error.  `parse`
models `JSON.parse`; `none` covers a parse exception (and a parse to a
non-object, which the route treats the same way). -/
def fetchMetadataCleaned (parse : String → Option MetaJson) : ProcEvent → MetaResult
  | .closed code out =>
    if code == some 0 && !(out == "") then
      match parse out with
      | some j => .resolved (some j)
      | none => .resolved none
    else .resolved none
  | .spawnError => .resolved none

/-- `fetchMetadata` of the single-attempt revision (index.js lines 68-88):
identical on close events, but the spawn-error handler calls `reject`. -/
def fetchMetadataLegacy (parse : String → Option MetaJson) : ProcEvent → MetaResult
  | .closed code out =>
    if code == some 0 && !(out == "") then
      match parse out with
      | some j => .resolved (some j)
      | none => .resolved none
    else .resolved none
  | .spawnError => .rejected

/-- The route's `await fetchMetadata(...)` inside its try/catch: a resolved
value passes through, a rejection is caught and leaves no metadata
(part_002 lines 114-117, index.js lines 107-114). -/
def awaitMeta : MetaResult → Option MetaJson
  | .resolved v => v
  | .rejected => none

/-! ## Filename construction (part_002 lines 112-122, index.js 106-120) -/

/-- `if (meta && meta.title) safeTitle = sanitize(meta.title).slice(0,120)`:
the title must be truthy (present and nonempty) for `safeTitle` to be set.
`sf` models the external sanitize-filename npm package. -/
def safeTitleFrom (sf : String → String) (meta : Option MetaJson) : Option String :=
  match meta with
  | some m =>
    match m.title with
    | some t => if t == "" then none else some ((sf t).take 120)
    | none => none
  | none => none

/-- The shared fallback of the `base` ternary: the raw identifier when it
is ID-shaped, else the sanitized identifier truncated to 40 characters
(part_002 line 120). -/
def fallbackBase (sf : String → String) (idParam : String) : String :=
  if isStrictVideoId idParam then idParam else (sf idParam).take 40

/-- `base = safeTitle ? safeTitle : (...)` — a null or empty `safeTitle`
is falsy and selects the fallback (part_002 line 120). -/
def baseNameOf (sf : String → String) (safeTitle : Option String) (idParam : String) : String :=
  match safeTitle with
  | some s => if s == "" then fallbackBase sf idParam else s
  | none => fallbackBase sf idParam

/-- The template literal of part_002 line 121. -/
def filenameOf (sf : String → String) (safeTitle : Option String)
    (idParam qualityKey : String) (ts : Nat) : String :=
  baseNameOf sf safeTitle idParam ++ "-" ++ qualityKey ++ "-" ++ toString ts ++ ".mp3"

/-! ## Cookies gating and extraction arguments (part_002 lines 137-167) -/

/-- The cookie-free `commonYtdlArgs` list of the fallback revision
(part_002 lines 138-148). -/
def baseCommonArgs : List String :=
  ["--no-playlist",
   "--no-warnings",
   "--no-check-certificate",
   "--rm-cache-dir",
   "--geo-bypass",
   "--no-call-home",
   "--no-config",
   "--user-agent",
   "Mozilla/5.0 (Windows NT 10.0; Win64; x64) AppleWebKit/537.36 (KHTML, like Gecko) Chrome/120.0.0.0 Safari/537.36",
   "--extractor-args",
   "youtube:player_client=web_html5"]

/-- Cookie gating (part_002 lines 151-156): the cookies option is appended
exactly when `(process.env.USE_COOKIES || '').toLowerCase() === 'true'`
and the configured cookies file exists on disk.  `useCookiesEnv` is the
raw environment value (`none` when unset), `cfExists` the existence test
of the cookies file, `cf` the configured `COOKIES_FILE` value pushed as
the option argument. -/
def buildCommonArgs (useCookiesEnv : Option String) (cfExists : Bool) (cf : String) : List String :=
  if jsToLower (useCookiesEnv.getD "") == "true" && cfExists then
    baseCommonArgs ++ ["--cookies", cf]
  else baseCommonArgs

/-- `ytdlArgs = ['-f', fmt, '-o', '-'].concat(commonYtdlArgs, [videoUrl])`
(part_002 line 167). -/
def ytdlAttemptArgs (fmt : String) (common : List String) (url : String) : List String :=
  ["-f", fmt, "-o", "-"] ++ common ++ [url]

/-! ## Failure advice (part_002 lines 211-218) -/

/-- The advisory text appended to the exhaustion response, built from
case-insensitive substring scans of `finalErrorText` (part_002 lines
212-218). -/
def adviceFor (t : String) : String :=
  (if occursIn (jsToLower t) "http error 403" || occursIn (jsToLower t) "forbidden" then
    "\nDetected 403 Forbidden — try cookies (USE_COOKIES=true + COOKIES_CONTENT secret) or an authenticated account."
  else "") ++
  (if occursIn (jsToLower t) "requested format is not available" then
    "\nRequested format not available — multiple fallbacks attempted."
  else "")

/-! ## The request route: environment, effects and both revisions -/

/-- The child processes spawned by one request, in spawn order. -/
inductive SpawnKind where
  | metadata
  | extraction (fmt : String)
  | transcode (fmt : String)
deriving DecidableEq

/-- The response the route sends: `badRequest` models `res.status(400).send`,
`download` models `res.download` of the saved file under the computed
filename, `failure` models `res.status(500).send`. -/
inductive Response where
  | badRequest (body : String)
  | download (filename : String)
  | failure (body : String)
deriving DecidableEq

/-- Everything one request's run depends on that comes from outside the
route's own code: how the metadata child process behaves, the JSON parser,
the sanitize-filename package, the `Date.now()` value, the cache existence
test, whether `res.download` delivers without error, the outcome each
format selector's attempt would produce, and whether the client
disconnected while the conversion was in flight (the fallback revision
registers no close handler, so nothing in `routeCleaned` reads that
field). -/
structure RouteEnv where
  metaEv : ProcEvent
  parse : String → Option MetaJson
  sf : String → String
  ts : Nat
  cacheHit : Bool
  downloadOk : Bool
  attempts : String → AttemptOutcome
  disconnected : Bool

/-- What one request's run produced: the response, the child processes
spawned, and the deletions scheduled, each as a pair of the filename and
the delay in milliseconds. -/
structure RouteResult where
  response : Response
  spawns : List SpawnKind
  schedules : List (String × Nat)
deriving DecidableEq

/-- `ONE_HOUR_MS = 60 * 60 * 1000`. -/
def oneHourMs : Nat := 60 * 60 * 1000

/-- The filename pipeline of the fallback revision: metadata fetch, safe
title, base name, quality key and timestamp (part_002 lines 101-122). -/
def cleanedFilename (env : RouteEnv) (quality idParam : String) : String :=
  filenameOf env.sf
    (safeTitleFrom env.sf (awaitMeta (fetchMetadataCleaned env.parse env.metaEv)))
    idParam (resolveQuality quality) env.ts

/-- Same pipeline in the single-attempt revision, whose metadata fetch
rejects on spawn error; the route's catch turns that into no title
(index.js lines 93-120). -/
def legacyFilename (env : RouteEnv) (quality idParam : String) : String :=
  filenameOf env.sf
    (safeTitleFrom env.sf (awaitMeta (fetchMetadataLegacy env.parse env.metaEv)))
    idParam (resolveQuality quality) env.ts

/-- The route handler of the fallback revision (part_002 lines 99-228):
reject an empty identifier before anything is spawned; fetch metadata and
build the filename; serve a cache hit immediately, scheduling deletion
when the send succeeds; otherwise drive the fallback loop, serving and
scheduling on the first success, and sending the aggregated diagnostics
plus advice when every selector fails. -/
def routeCleaned (env : RouteEnv) (quality idParam : String) : RouteResult :=
  if idParam == "" then
    { response := .badRequest "Missing id", spawns := [], schedules := [] }
  else
    let filename := cleanedFilename env quality idParam
    if env.cacheHit then
      { response := .download filename
        spawns := [.metadata]
        schedules := if env.downloadOk then [(filename, oneHourMs)] else [] }
    else
      let run := convertRun env.attempts
      let convSpawns := run.1.flatMap fun f => [SpawnKind.extraction f, SpawnKind.transcode f]
      match run.2 with
      | .success _ =>
        { response := .download filename
          spawns := .metadata :: convSpawns
          schedules := if env.downloadOk then [(filename, oneHourMs)] else [] }
      | .exhausted finalErrorText =>
        { response := .failure
            ("Conversion failed. Debug info:\n" ++ finalErrorText ++ "\n" ++ adviceFor finalErrorText)
          spawns := .metadata :: convSpawns
          schedules := [] }

/-- The route handler of the single-attempt revision (index.js lines
91-193): same guard and filename pipeline, but a bare `res.download` on a
cache hit (no deletion is scheduled there), a single attempt with the
fixed `bestaudio` selector, a scheduled deletion only when the download
callback reports no error, and the fixed failure body. -/
def routeLegacy (env : RouteEnv) (quality idParam : String) : RouteResult :=
  if idParam == "" then
    { response := .badRequest "Missing id", spawns := [], schedules := [] }
  else
    let filename := legacyFilename env quality idParam
    if env.cacheHit then
      { response := .download filename
        spawns := [.metadata]
        schedules := [] }
    else
      let a := env.attempts "bestaudio"
      let spawns := [SpawnKind.metadata, .extraction "bestaudio", .transcode "bestaudio"]
      if attemptOk a then
        if env.downloadOk then
          { response := .download filename, spawns := spawns
            schedules := [(filename, oneHourMs)] }
        else
          { response := .failure "Error sending file", spawns := spawns, schedules := [] }
      else
        { response := .failure "Conversion failed", spawns := spawns, schedules := [] }

/-! ## Client-disconnect wiring -/

/-- The two child processes of an in-flight attempt. -/
inductive ChildProc where
  | extraction
  | transcode
deriving DecidableEq

/-- A termination the route's close handler requests for a child process. -/
structure KillAction where
  target : ChildProc
  signal : String
deriving DecidableEq

/-- The `req.on('close', ...)` handler of the single-attempt revision
kills both children forcefully (index.js lines 184-187). -/
def legacyOnCloseActions : List KillAction :=
  [{ target := .extraction, signal := "SIGKILL" },
   { target := .transcode, signal := "SIGKILL" }]

/-- The fallback revision registers no request close handler anywhere in
its route (part_002 lines 99-228 contain no `req.on` call), so a client
disconnect triggers no termination at all. -/
def cleanedOnCloseActions : List KillAction := []

/-! ## Concrete instances used by witnesses and counterexamples -/

/-- An attempt environment in which every selector's attempt fails with a
nonzero exit code and no output file. -/
def envAllFail : String → AttemptOutcome :=
  fun f => { code := some 1, ytdlStderr := "extract error for " ++ f, ffmpegStderr := "", outputExists := false }

/-- A JSON parser that always fails. -/
def parseNone : String → Option MetaJson :=
  fun _ => none

/-- A request environment with a cache hit and a successfully delivered
download. -/
def envCache : RouteEnv where
  metaEv := .spawnError
  parse := fun _ => none
  sf := fun s => s
  ts := 0
  cacheHit := true
  downloadOk := true
  attempts := fun _ => { code := some 1, ytdlStderr := "", ffmpegStderr := "", outputExists := false }
  disconnected := false

/-- The character-removal core of the external sanitize-filename npm
package, which deletes filesystem-unsafe characters (among them the path
separators and shell metacharacters below) from its input; used to
instantiate the sanitizer parameter on concrete inputs. -/
def sanitizeModel (s : String) : String :=
  ⟨s.toList.filter fun c =>
    !(c == '/' || c == '?' || c == '<' || c == '>' || c == '\\' ||
      c == ':' || c == '*' || c == '|' || c == '"')⟩

/-! ## Theorems -/

/-- C2: a single transcode attempt succeeds exactly when the transcoder
exit code is zero and the output file exists on disk afterwards, and after
the attempt's own failure-path cleanup a file is present at the computed
path exactly when the attempt succeeded (one complete file on success,
none on failure). -/
theorem attempt_success_iff_and_cleanup (a : AttemptOutcome) :
    ((runAttemptPost a).success = true ↔ (a.code = some 0 ∧ a.outputExists = true)) ∧
    (runAttemptPost a).filePresent = (runAttemptPost a).success := by
  unfold runAttemptPost
  split_ifs with h <;>
    simp only [Bool.and_eq_true, beq_iff_eq] at h <;>
    simp [h]

/-- C4: the quality path segment is interpreted case-insensitively, with
low, medium and high mapped to 64k, 128k and 320k respectively, every
other input (after lowercasing) mapped to the high tier's 320k, and the
effective bitrate always one of the three fixed values. -/
theorem quality_resolution (q : String) :
    effectiveBitrate q =
      (if jsToLower q = "low" then "64k"
       else if jsToLower q = "medium" then "128k"
       else "320k") ∧
    (effectiveBitrate q = "64k" ∨ effectiveBitrate q = "128k" ∨ effectiveBitrate q = "320k") := by
  have hmain : effectiveBitrate q =
      (if jsToLower q = "low" then "64k"
       else if jsToLower q = "medium" then "128k"
       else "320k") := by
    by_cases hq : q = ""
    · subst hq; decide
    · unfold effectiveBitrate resolveQuality qualityMap
      simp only [beq_iff_eq, hq, if_false]
      by_cases h1 : jsToLower q = "low"
      · simp [h1]
      · by_cases h2 : jsToLower q = "medium"
        · simp [h1, h2]
        · by_cases h3 : jsToLower q = "high"
          · simp [h1, h2, h3]
          · simp [h1, h2, h3]
  refine ⟨hmain, ?_⟩
  rw [hmain]
  split_ifs <;> simp

/-- C5: source resolution is a deterministic function of the identifier:
a strict 11-character identifier over the alphanumeric, underscore and
hyphen alphabet is embedded into the canonical watch URL, an identifier
that looks like an absolute URL is used verbatim, anything else is also
embedded into the canonical template, and the concrete identifier
dQw4w9WgXcQ resolves to its canonical watch URL. -/
theorem source_resolution (id : String) :
    videoUrl id =
      (if jsStartsWith id "http" && !isStrictVideoId id then id
       else "https://www.youtube.com/watch?v=" ++ id) ∧
    (isStrictVideoId id = true ↔
      id.length = 11 ∧ ∀ c ∈ id.toList, c.isAlphanum = true ∨ c = '_' ∨ c = '-') ∧
    videoUrl "dQw4w9WgXcQ" = "https://www.youtube.com/watch?v=dQw4w9WgXcQ" := by
  refine ⟨?_, ?_, by decide⟩
  · unfold videoUrl
    by_cases hs : isStrictVideoId id = true
    · by_cases hh : jsStartsWith id "http" = true <;> simp [hs, hh]
    · by_cases hh : jsStartsWith id "http" = true <;>
        simp [Bool.not_eq_true] at hs <;> simp [hs, hh]
  · unfold isStrictVideoId
    simp [Bool.and_eq_true, List.all_eq_true, beq_iff_eq, Bool.or_eq_true, or_assoc]

/-- C1: the fallback controller tries the four declared selectors strictly
in priority order, one attempt per selector, stopping at the first
success: the attempted trace is the failing selectors up to the first
success, then that success.  When all four attempts fail, the run is an
exhaustion whose diagnostic text is the concatenation, in order, of every
attempt's section carrying its selector name, extraction stderr, transcode
stderr and exit code. -/
theorem fallback_controller_order_and_diagnostics (env : String → AttemptOutcome) :
    (convertRun env).1 =
      formatsToTry.takeWhile (fun f => !attemptOk (env f)) ++
        (formatsToTry.dropWhile (fun f => !attemptOk (env f))).take 1 ∧
    (formatsToTry.all (fun f => !attemptOk (env f)) = true →
      (convertRun env).2 = ConvResult.exhausted
        (String.join (formatsToTry.map fun f => attemptSection f (env f)))) := by
  constructor
  · by_cases h1 : attemptOk (env "bestaudio[ext=m4a]/bestaudio") = true <;>
    by_cases h2 : attemptOk (env "bestaudio[protocol^=https]/bestaudio") = true <;>
    by_cases h3 : attemptOk (env "bestaudio[ext=webm]/bestaudio") = true <;>
    by_cases h4 : attemptOk (env "bestaudio") = true <;>
      simp [convertRun, convertLoop, formatsToTry, h1, h2, h3, h4]
  · intro hall
    simp only [formatsToTry, List.all_cons, List.all_nil, Bool.and_eq_true,
      Bool.not_eq_true'] at hall
    obtain ⟨ha1, ha2, ha3, ha4⟩ := hall
    simp [convertRun, convertLoop, formatsToTry, ha1, ha2, ha3, ha4, String.join]

/-- Witness for C1: a concrete environment in which every selector's
attempt fails, exercising the exhaustion branch of the theorem. -/
theorem fallback_controller_order_and_diagnostics_witness :
    formatsToTry.all (fun f => !attemptOk (envAllFail f)) = true ∧
    (convertRun envAllFail).2 = ConvResult.exhausted
      (String.join (formatsToTry.map fun f => attemptSection f (envAllFail f))) :=
  ⟨by decide, (fallback_controller_order_and_diagnostics envAllFail).2 (by decide)⟩

/-- C6 (amended): the output filename is always
baseName-qualityKey-timestamp.mp3, where baseName is the sanitized title
truncated to 120 characters when metadata fetching yielded a nonempty
title whose sanitized truncation is itself nonempty, and otherwise falls
back to the raw identifier when it is ID-shaped, else the sanitized
identifier truncated to 40 characters. -/
theorem filename_construction (sf : String → String) (meta : Option MetaJson)
    (idParam qk : String) (ts : Nat) :
    filenameOf sf (safeTitleFrom sf meta) idParam qk ts =
      (match meta with
       | some m =>
         match m.title with
         | some t =>
           if t ≠ "" ∧ (sf t).take 120 ≠ "" then (sf t).take 120
           else fallbackBase sf idParam
         | none => fallbackBase sf idParam
       | none => fallbackBase sf idParam) ++
        "-" ++ qk ++ "-" ++ toString ts ++ ".mp3" := by
  rcases meta with - | ⟨t?⟩
  · rfl
  · rcases t? with - | t
    · rfl
    · by_cases ht : t = ""
      · simp [filenameOf, safeTitleFrom, baseNameOf, ht]
      · by_cases hs : (sf t).take 120 = ""
        · simp [filenameOf, safeTitleFrom, baseNameOf, ht, hs]
        · simp [filenameOf, safeTitleFrom, baseNameOf, ht, hs]

set_option maxRecDepth 4096 in
/-- Counterexample for C6 as stated: metadata fetching succeeds with the
title made of three path separators, which the sanitizer maps to the empty
string, yet the base name is the ID-shaped identifier instead of the
(empty) sanitized truncated title. -/
theorem filename_claim_counterexample :
    safeTitleFrom sanitizeModel (some { title := some "///" }) = some "" ∧
    filenameOf sanitizeModel (safeTitleFrom sanitizeModel (some { title := some "///" }))
        "dQw4w9WgXcQ" "high" 0 = "dQw4w9WgXcQ-high-0.mp3" ∧
    ((sanitizeModel "///").take 120 ++ "-" ++ "high" ++ "-" ++ toString (0 : Nat) ++ ".mp3") ≠
      "dQw4w9WgXcQ-high-0.mp3" := by
  refine ⟨by decide, by decide, by decide⟩

/-- C8: a request with an empty identifier is answered with the 400
Missing id response, and neither revision spawns any child process nor
schedules anything for it. -/
theorem empty_identifier_rejected (env : RouteEnv) (quality : String) :
    routeCleaned env quality "" =
      { response := Response.badRequest "Missing id", spawns := [], schedules := [] } ∧
    routeLegacy env quality "" =
      { response := Response.badRequest "Missing id", spawns := [], schedules := [] } :=
  ⟨rfl, rfl⟩

/-- C7 (amended): in the fallback revision the metadata fetch resolves to
no title on a nonzero exit, on empty standard output, on malformed JSON
and on a spawn failure; in the single-attempt revision the first three
cases also resolve to no title, but a spawn failure rejects the promise,
which the route's catch converts to no title, so in neither revision does
a metadata failure fail or block the primary request. -/
theorem metadata_failure_resolution (parse : String → Option MetaJson)
    (code : Option Int) (out : String) :
    (code ≠ some 0 → fetchMetadataCleaned parse (.closed code out) = .resolved none) ∧
    (out = "" → fetchMetadataCleaned parse (.closed code out) = .resolved none) ∧
    (parse out = none → fetchMetadataCleaned parse (.closed code out) = .resolved none) ∧
    fetchMetadataCleaned parse .spawnError = .resolved none ∧
    (code ≠ some 0 → fetchMetadataLegacy parse (.closed code out) = .resolved none) ∧
    (out = "" → fetchMetadataLegacy parse (.closed code out) = .resolved none) ∧
    (parse out = none → fetchMetadataLegacy parse (.closed code out) = .resolved none) ∧
    fetchMetadataLegacy parse .spawnError = .rejected ∧
    awaitMeta (fetchMetadataLegacy parse .spawnError) = none := by
  have hcode : code ≠ some 0 →
      fetchMetadataCleaned parse (.closed code out) = .resolved none := by
    intro h
    have hb : (code == some 0 && !(out == "")) = false := by simp [h]
    simp [fetchMetadataCleaned, hb]
  have hout : out = "" →
      fetchMetadataCleaned parse (.closed code out) = .resolved none := by
    intro h
    have hb : (code == some 0 && !(out == "")) = false := by simp [h]
    simp [fetchMetadataCleaned, hb]
  have hparse : parse out = none →
      fetchMetadataCleaned parse (.closed code out) = .resolved none := by
    intro h
    by_cases hb : (code == some 0 && !(out == "")) = true
    · simp [fetchMetadataCleaned, hb, h]
    · rw [Bool.not_eq_true] at hb
      simp [fetchMetadataCleaned, hb]
  exact ⟨hcode, hout, hparse, rfl, hcode, hout, hparse, rfl, rfl⟩

/-- Witness for C7: all three close-event failure hypotheses hold
simultaneously at exit code 1 with empty output and a failing parser. -/
theorem metadata_failure_resolution_witness :
    ((some 1 : Option Int) ≠ some 0 ∧ ("" : String) = "" ∧ parseNone "" = none) ∧
    fetchMetadataCleaned parseNone (ProcEvent.closed (some 1) "") = MetaResult.resolved none ∧
    fetchMetadataCleaned parseNone ProcEvent.spawnError = MetaResult.resolved none ∧
    fetchMetadataLegacy parseNone (ProcEvent.closed (some 1) "") = MetaResult.resolved none ∧
    fetchMetadataLegacy parseNone ProcEvent.spawnError = MetaResult.rejected ∧
    awaitMeta (fetchMetadataLegacy parseNone ProcEvent.spawnError) = none := by
  have h := metadata_failure_resolution parseNone (some 1) ""
  exact ⟨⟨by decide, rfl, rfl⟩, h.1 (by decide), h.2.2.2.1,
    h.2.2.2.2.1 (by decide), h.2.2.2.2.2.2.2.1, h.2.2.2.2.2.2.2.2⟩

/-- Counterexample for C7 as stated: in the single-attempt revision a
spawn failure does not resolve to no title — it rejects the promise. -/
theorem metadata_spawn_failure_rejects :
    fetchMetadataLegacy parseNone ProcEvent.spawnError ≠ MetaResult.resolved none := by
  decide

/-- C9 (amended): in the fallback revision, a request whose computed
output file already exists is served immediately — only the metadata
process was spawned, no conversion process — and when the send succeeds
the file's deletion is scheduled one retention window (one hour) later. -/
theorem cache_hit_behavior (env : RouteEnv) (quality idParam : String)
    (hid : idParam ≠ "") (hc : env.cacheHit = true) (hd : env.downloadOk = true) :
    routeCleaned env quality idParam =
      { response := Response.download (cleanedFilename env quality idParam)
        spawns := [SpawnKind.metadata]
        schedules := [(cleanedFilename env quality idParam, oneHourMs)] } := by
  unfold routeCleaned
  rw [if_neg (by simpa using hid), if_pos hc, if_pos hd]

/-- Witness for C9's amended theorem at a concrete cache-hit environment. -/
theorem cache_hit_behavior_witness :
    (("dQw4w9WgXcQ" : String) ≠ "" ∧ envCache.cacheHit = true ∧ envCache.downloadOk = true) ∧
    routeCleaned envCache "high" "dQw4w9WgXcQ" =
      { response := Response.download (cleanedFilename envCache "high" "dQw4w9WgXcQ")
        spawns := [SpawnKind.metadata]
        schedules := [(cleanedFilename envCache "high" "dQw4w9WgXcQ", oneHourMs)] } :=
  ⟨⟨by decide, rfl, rfl⟩, cache_hit_behavior envCache "high" "dQw4w9WgXcQ" (by decide) rfl rfl⟩

set_option maxRecDepth 4096 in
/-- Counterexample for C9 as stated: the single-attempt revision serves a
cache hit with a bare download call, so nothing is scheduled for deletion
for that request. -/
theorem cache_hit_no_schedule_in_legacy :
    (routeLegacy envCache "high" "dQw4w9WgXcQ").response =
      Response.download (legacyFilename envCache "high" "dQw4w9WgXcQ") ∧
    (routeLegacy envCache "high" "dQw4w9WgXcQ").schedules = [] := by
  refine ⟨by decide, by decide⟩

/-- C3: the fallback revision registers no request close handler, so a
client disconnect terminates neither child process — its route's outcome
is independent of the disconnect flag, and in particular the remaining
selectors are still attempted — whereas the single-attempt revision's
close handler sends SIGKILL to both children. -/
theorem fallback_revision_ignores_disconnect :
    cleanedOnCloseActions = [] ∧
    (∀ (env : RouteEnv) (quality idParam : String),
      routeCleaned { env with disconnected := true } quality idParam =
        routeCleaned { env with disconnected := false } quality idParam) ∧
    legacyOnCloseActions =
      [{ target := ChildProc.extraction, signal := "SIGKILL" },
       { target := ChildProc.transcode, signal := "SIGKILL" }] :=
  ⟨rfl, fun _ _ _ => rfl, rfl⟩

/-- The canonical watch URL is 32 characters plus the identifier, so it is
never the cookies option token. -/
lemma canonical_ne_cookies (id : String) :
    "https://www.youtube.com/watch?v=" ++ id ≠ "--cookies" := by
  intro h
  have hl := congrArg String.length h
  rw [String.length_append] at hl
  have h32 : ("https://www.youtube.com/watch?v=" : String).length = 32 := by decide
  have h9 : ("--cookies" : String).length = 9 := by decide
  rw [h32, h9] at hl
  omega

/-- The resolved source URL is never the cookies option token: it is
either the canonical watch URL or a string starting with http. -/
lemma videoUrl_ne_cookies (id : String) : videoUrl id ≠ "--cookies" := by
  unfold videoUrl
  split
  · exact canonical_ne_cookies id
  · split
    · rename_i hsw
      intro h
      subst h
      exact absurd hsw (by decide)
    · exact canonical_ne_cookies id

/-- C10: the extraction argument list contains the cookies option exactly
when the USE_COOKIES environment value lowercases to the string true and
the configured cookies file exists; whenever either condition fails the
argument list is identical to the cookie-free one. -/
theorem cookies_argument_gating (useEnv : Option String) (cfExists : Bool)
    (cf idParam fmt : String) (hf : fmt ∈ formatsToTry) :
    ("--cookies" ∈ ytdlAttemptArgs fmt (buildCommonArgs useEnv cfExists cf) (videoUrl idParam) ↔
      (jsToLower (useEnv.getD "") = "true" ∧ cfExists = true)) ∧
    ytdlAttemptArgs fmt (buildCommonArgs useEnv cfExists cf) (videoUrl idParam) =
      (if jsToLower (useEnv.getD "") == "true" && cfExists then
        ytdlAttemptArgs fmt (baseCommonArgs ++ ["--cookies", cf]) (videoUrl idParam)
      else ytdlAttemptArgs fmt baseCommonArgs (videoUrl idParam)) := by
  have hfmt : fmt ≠ "--cookies" := by fin_cases hf <;> decide
  by_cases hg : (jsToLower (useEnv.getD "") == "true" && cfExists) = true
  · have hg' := hg
    simp only [Bool.and_eq_true, beq_iff_eq] at hg'
    refine ⟨⟨fun _ => hg', fun _ => ?_⟩, by simp [buildCommonArgs, hg]⟩
    simp [ytdlAttemptArgs, buildCommonArgs, hg]
  · rw [Bool.not_eq_true] at hg
    have hnotmem : "--cookies" ∉ ytdlAttemptArgs fmt baseCommonArgs (videoUrl idParam) := by
      intro hmem
      simp [ytdlAttemptArgs, baseCommonArgs] at hmem
      rcases hmem with h | h
      · exact hfmt h.symm
      · exact videoUrl_ne_cookies idParam h.symm
    have hrhs : ¬ (jsToLower (useEnv.getD "") = "true" ∧ cfExists = true) := by
      intro ⟨h1, h2⟩
      rw [Bool.and_eq_false_iff] at hg
      rcases hg with hg | hg
      · rw [beq_eq_false_iff_ne] at hg
        exact hg h1
      · rw [h2] at hg
        exact absurd hg (by decide)
    refine ⟨?_, by simp [buildCommonArgs, hg]⟩
    simp only [buildCommonArgs, hg, if_false, Bool.false_eq_true]
    exact ⟨fun hm => absurd hm hnotmem, fun hc => absurd hc hrhs⟩

/-- Witness for C10 at the unconstrained selector with cookies enabled. -/
theorem cookies_argument_gating_witness :
    ("bestaudio" ∈ formatsToTry) ∧
    ("--cookies" ∈ ytdlAttemptArgs "bestaudio"
        (buildCommonArgs (some "TRUE") true "./cookies.txt") (videoUrl "dQw4w9WgXcQ") ↔
      (jsToLower ((some "TRUE" : Option String).getD "") = "true" ∧ (true : Bool) = true)) :=
  ⟨by decide,
   (cookies_argument_gating (some "TRUE") true "./cookies.txt" "dQw4w9WgXcQ" "bestaudio"
      (by decide)).1⟩

end Downapi
